import Mathlib

/-!
Verification of the Booner Trade bot orchestration and risk-gated execution
engine against its natural-language specification.

The embedding follows the repository sources: the broker-direction
normalization and the SL/TP formulas are translated from the server.py
excerpts preserved in the repository documentation, the settings dialog and
dashboard logic from the frontend sources.  Parts of the backend engine that
the repository only documents (risk gate, signal generator, trade executor)
are modelled from the specification text and marked as such in their doc
comments.  Machine floats of the source are embedded as exact rationals.
-/

namespace BoonerTrade

/-- Canonical trade direction, the two-variant tagged union of the spec. -/
inductive Direction where
  | BUY
  | SELL
deriving DecidableEq, Repr

/-- A raw position-direction encoding as delivered by the broker API: either a
textual tag (long form or short code) or a numeric enum value. -/
inductive RawPositionType where
  | str (s : String)
  | num (n : Nat)
deriving DecidableEq, Repr

/-- Known BUY encodings from backend/server.py lines 2814-2831 (excerpted in
the repository documentation): position_type_raw in [POSITION_TYPE_BUY, BUY, 0]. -/
def isKnownBuyEncoding : RawPositionType → Bool
  | .str s => s = "POSITION_TYPE_BUY" || s = "BUY"
  | .num n => n = 0

/-- Known SELL encodings from backend/server.py lines 2814-2831:
position_type_raw in [POSITION_TYPE_SELL, SELL, 1]. -/
def isKnownSellEncoding : RawPositionType → Bool
  | .str s => s = "POSITION_TYPE_SELL" || s = "SELL"
  | .num n => n = 1

/-- Direction normalization from backend/server.py lines 2814-2831: known BUY
encodings map to BUY, known SELL encodings to SELL, and any other raw value is
logged with a warning and defaults to BUY. -/
def normalizePositionType (raw : RawPositionType) : Direction :=
  if isKnownBuyEncoding raw then .BUY
  else if isKnownSellEncoding raw then .SELL
  else .BUY

/-- Modelled from the spec: the design-note normalization that fails closed,
mapping unknown encodings to none (log and skip) instead of assigning a
default direction.  Stated only to compare the code against claim C1. -/
def normalizePositionTypeSpec (raw : RawPositionType) : Option Direction :=
  if isKnownBuyEncoding raw then some .BUY
  else if isKnownSellEncoding raw then some .SELL
  else none

/-- Position lifecycle status kept by the engine. -/
inductive PositionStatus where
  | OPEN
  | CLOSED
deriving DecidableEq, Repr

/-- A position record as described by the data model: identifier, the
(instrument, strategy, platform) key, direction, prices and status. -/
structure Position where
  id : Nat
  instrument : String
  platform : String
  strategy : String
  direction : Direction
  entry_price : ℚ
  quantity : ℚ
  stop_loss : ℚ
  take_profit : ℚ
  status : PositionStatus
deriving DecidableEq, Repr

/-- SL/TP formula from backend/server.py lines 2857-2868 (excerpted in the
repository documentation): for BUY the stop loss is entry_price times
(1 - sl_percent / 100) and the take profit entry_price times
(1 + tp_percent / 100); for SELL the two formulas are inverted. -/
def calcSlTp (position_type : Direction) (entry_price sl_percent tp_percent : ℚ) : ℚ × ℚ :=
  match position_type with
  | .BUY => (entry_price * (1 - sl_percent / 100), entry_price * (1 + tp_percent / 100))
  | .SELL => (entry_price * (1 + sl_percent / 100), entry_price * (1 - tp_percent / 100))

/-- The sync-trade-settings operation re-applies the current StrategyConfig
SL/TP percentages to an existing OPEN position using the server.py formula
calcSlTp; CLOSED positions are left untouched. -/
def syncTradeSettings (sl_percent tp_percent : ℚ) (p : Position) : Position :=
  if p.status = .OPEN then
    { p with
      stop_loss := (calcSlTp p.direction p.entry_price sl_percent tp_percent).1,
      take_profit := (calcSlTp p.direction p.entry_price sl_percent tp_percent).2 }
  else p

/-- The OPEN BUY position of the v2.3.33 sync scenario: entry price 4274.18,
day strategy. -/
def c3Position : Position :=
  { id := 1, instrument := "XAUUSD", platform := "MT5_LIBERTEX", strategy := "day",
    direction := .BUY, entry_price := 4274.18, quantity := 0.01,
    stop_loss := 4274.18, take_profit := 4556.23, status := .OPEN }

/-- C1 counterexample: the unknown encoding POSITION_TYPE_UNKNOWN is neither a
known BUY nor a known SELL encoding, the spec-modelled fail-closed
normalization skips it, yet the code assigns the canonical direction BUY to
it instead of skipping the position. -/
theorem C1_counterexample :
    isKnownBuyEncoding (.str "POSITION_TYPE_UNKNOWN") = false ∧
    isKnownSellEncoding (.str "POSITION_TYPE_UNKNOWN") = false ∧
    normalizePositionTypeSpec (.str "POSITION_TYPE_UNKNOWN") = none ∧
    normalizePositionType (.str "POSITION_TYPE_UNKNOWN") = Direction.BUY := by
  decide

/-- C1 (amended): when the direction normalization receives an encoding that is
neither a known BUY nor a known SELL encoding, it logs a warning and assigns
the canonical direction BUY as a default; the position is not skipped. -/
theorem C1_unknown_defaults_to_buy (raw : RawPositionType)
    (h1 : isKnownBuyEncoding raw = false) (h2 : isKnownSellEncoding raw = false) :
    normalizePositionType raw = Direction.BUY := by
  unfold normalizePositionType
  rw [h1, h2]
  rfl

/-- C1 witness: the numeric enum value 7 is unknown and is normalized to BUY. -/
theorem C1_witness : normalizePositionType (.num 7) = Direction.BUY :=
  C1_unknown_defaults_to_buy (.num 7) (by decide) (by decide)

/-- C2: the direction invariant of the SL/TP formula used when positions are
created or re-synced: for BUY, stop_loss < entry_price < take_profit; for
SELL, take_profit < entry_price < stop_loss; for every positive entry price
and positive stop-loss and take-profit percentages. -/
theorem C2_direction_invariant (d : Direction) (entry s t : ℚ)
    (he : 0 < entry) (hs : 0 < s) (ht : 0 < t) :
    (d = .BUY → (calcSlTp d entry s t).1 < entry ∧ entry < (calcSlTp d entry s t).2) ∧
    (d = .SELL → (calcSlTp d entry s t).2 < entry ∧ entry < (calcSlTp d entry s t).1) := by
  constructor <;> rintro rfl <;> simp only [calcSlTp] <;> constructor <;> nlinarith

/-- C2 witness: a BUY at entry price 100 with 1 percent stop loss and 2 percent
take profit satisfies the direction invariant. -/
theorem C2_witness :
    (calcSlTp .BUY 100 1 2).1 < 100 ∧ (100 : ℚ) < (calcSlTp .BUY 100 1 2).2 :=
  (C2_direction_invariant .BUY 100 1 2 (by norm_num) (by norm_num) (by norm_num)).1 rfl

/-- C3: re-syncing the OPEN BUY position with entry price 4274.18 under a
strategy config of 1 percent stop loss and 10 percent take profit yields
stop_loss 4231.44 and take_profit 4701.60, each within 0.01 in absolute value. -/
theorem C3_sync_example :
    |(syncTradeSettings 1 10 c3Position).stop_loss - 4231.44| ≤ (0.01 : ℚ) ∧
    |(syncTradeSettings 1 10 c3Position).take_profit - 4701.60| ≤ (0.01 : ℚ) := by
  constructor <;>
    · rw [abs_le]
      constructor <;> norm_num [syncTradeSettings, calcSlTp, c3Position]

/-- A point in time, UTC: weekday indexed as in the Dashboard day list
(0 = Monday ... 5 = Saturday, 6 = Sunday) and minutes since midnight. -/
structure TimeUTC where
  weekday : Nat
  minute : Nat
deriving DecidableEq, Repr

/-- Per-instrument trading-hours window as stored by the Dashboard market-hours
manager: enabled flag, weekday set, open and close time (encoded in minutes
since midnight UTC) plus the weekend-allowed flag of the data model. -/
structure MarketHours where
  enabled : Bool
  days : List Nat
  open_minute : Nat
  close_minute : Nat
  allow_weekend : Bool
deriving DecidableEq, Repr

/-- The Dashboard applyPreset boerse configuration: enabled, days 0-4
(Monday to Friday), open 08:30 and close 20:00 UTC, weekend not allowed. -/
def boersePreset : MarketHours :=
  { enabled := true, days := [0, 1, 2, 3, 4],
    open_minute := 8 * 60 + 30, close_minute := 20 * 60, allow_weekend := false }

/-- Modelled from the spec: the market-open test of the Risk Gate, respecting
the per-instrument weekday set, the open and close time and the
weekend-allowed flag (the enforcement code of the backend bot is only
documented in the repository). -/
def marketOpenAt (h : MarketHours) (t : TimeUTC) : Bool :=
  h.enabled &&
  h.days.contains t.weekday &&
  (decide (h.open_minute ≤ t.minute) && decide (t.minute ≤ h.close_minute)) &&
  (decide (t.weekday < 5) || h.allow_weekend)

/-- Account state mirrored from the Broker Gateway: balance and committed
margin per platform. -/
structure AccountState where
  platform : String
  balance : ℚ
  margin_used : ℚ
deriving DecidableEq, Repr

/-- Per-platform configuration: active flag and the cap on combined open
exposure in percent of the balance (default 20). -/
structure PlatformConfig where
  platform : String
  active : Bool
  max_balance_percent : ℚ
deriving DecidableEq, Repr

/-- Per-strategy configuration consulted by the Signal Generator and the Risk
Gate. -/
structure StrategyConfig where
  strategy : String
  enabled : Bool
  min_confidence : ℚ
  stop_loss_percent : ℚ
  take_profit_percent : ℚ
  max_positions : Nat
deriving DecidableEq, Repr

/-- A candidate trade submitted to the Risk Gate: key, direction, confidence
and the margin the trade would commit. -/
structure CandidateTrade where
  instrument : String
  strategy : String
  platform : String
  direction : Direction
  confidence : ℚ
  margin : ℚ
deriving DecidableEq, Repr

/-- Admission decision of the Risk Gate. -/
inductive Decision where
  | Admit
  | Deny (reason : String)
deriving DecidableEq, Repr

/-- Test whether a position is OPEN for the given (instrument, strategy,
platform) key. -/
def isOpenFor (instrument strategy platform : String) (p : Position) : Bool :=
  decide (p.status = .OPEN) && decide (p.instrument = instrument) &&
  decide (p.strategy = strategy) && decide (p.platform = platform)

/-- Number of OPEN positions for an (instrument, strategy) pair. -/
def countOpenPositions (ps : List Position) (instrument strategy : String) : Nat :=
  (ps.filter (fun p =>
    decide (p.status = .OPEN) && decide (p.instrument = instrument) &&
    decide (p.strategy = strategy))).length

/-- Whether an OPEN position already exists for the full (instrument,
strategy, platform) key. -/
def hasOpenPosition (ps : List Position) (instrument strategy platform : String) : Bool :=
  ps.any (isOpenFor instrument strategy platform)

/-- Modelled from the spec: the Risk Gate admission operation riskGate (the backend bot code
is only documented in the repository).  The deny conditions are evaluated in
the specified order: market closed or platform inactive first, then the
projected portfolio risk against max_balance_percent, the open-position count
against max_positions, the duplicate-trade check, and last the defensive
confidence re-check. -/
def riskGate (c : CandidateTrade) (acct : AccountState) (openPositions : List Position)
    (pc : PlatformConfig) (sc : StrategyConfig) (hours : MarketHours) (now : TimeUTC) :
    Decision :=
  if !(marketOpenAt hours now) then .Deny "market closed"
  else if !pc.active then .Deny "platform inactive"
  else if pc.max_balance_percent < (acct.margin_used + c.margin) / acct.balance * 100 then
    .Deny "risk limit exceeded"
  else if sc.max_positions ≤ countOpenPositions openPositions c.instrument c.strategy then
    .Deny "max positions reached"
  else if hasOpenPosition openPositions c.instrument c.strategy c.platform then
    .Deny "duplicate trade"
  else if c.confidence < sc.min_confidence then .Deny "confidence below threshold"
  else .Admit

/-- C5: the Risk Gate never gives an Admit decision for a candidate whose projected portfolio risk
percent, that is (margin_used + candidate margin) divided by the balance times
100, exceeds the platform cap max_balance_percent. -/
theorem C5_risk_cap_never_admits (c : CandidateTrade) (acct : AccountState)
    (openPositions : List Position) (pc : PlatformConfig) (sc : StrategyConfig)
    (hours : MarketHours) (now : TimeUTC)
    (_hbal : 0 < acct.balance)
    (hrisk : pc.max_balance_percent < (acct.margin_used + c.margin) / acct.balance * 100) :
    riskGate c acct openPositions pc sc hours now ≠ .Admit := by
  unfold riskGate
  split_ifs <;> simp_all

/-- C5 witness: a candidate committing 10 of margin on an account with balance
100 and 15 margin already used projects 25 percent, above the default cap of
20, and does not receive an Admit decision. -/
theorem C5_witness :
    riskGate ⟨"GOLD", "day", "MT5_LIBERTEX", .BUY, 0.9, 10⟩ ⟨"MT5_LIBERTEX", 100, 15⟩ []
      ⟨"MT5_LIBERTEX", true, 20⟩ ⟨"day", true, 0.4, 1.5, 2.5, 10⟩ boersePreset ⟨0, 600⟩ ≠
      .Admit :=
  C5_risk_cap_never_admits _ _ _ _ _ _ _ (by norm_num) (by norm_num)

/-- C6: with the boerse trading-hours window (Monday to Friday 08:30-20:00 UTC,
weekend not allowed), every candidate trade evaluated at any minute of
Saturday (weekday 5) is denied with reason "market closed", regardless of the
account state, the open positions, the platform and strategy configuration;
the market-closed denial precedes every other check. -/
theorem C6_saturday_market_closed (c : CandidateTrade) (acct : AccountState)
    (openPositions : List Position) (pc : PlatformConfig) (sc : StrategyConfig)
    (minute : Nat) :
    riskGate c acct openPositions pc sc boersePreset ⟨5, minute⟩ = .Deny "market closed" := by
  rfl

/-- Signal direction including the neutral HOLD. -/
inductive SignalDirection where
  | BUY
  | SELL
  | HOLD
deriving DecidableEq, Repr

/-- A typed signal emitted by a strategy evaluation. -/
structure Signal where
  instrument : String
  strategy : String
  direction : SignalDirection
  confidence : ℚ
deriving DecidableEq, Repr

/-- Modelled from the spec: the enqueue test of the Signal Generator, passing
exactly the non-HOLD signals whose (possibly analyzer-adjusted) confidence
reaches the min_confidence threshold of the emitting strategy. -/
def signalPassesFilter (minConfidence : ℚ) (s : Signal) : Bool :=
  !(decide (s.direction = .HOLD)) && decide (minConfidence ≤ s.confidence)

/-- Modelled from the spec: one Signal Generator cycle enqueues the evaluated
signals that pass the filter; minConf maps a strategy id to its configured
min_confidence. -/
def generatorEnqueue (minConf : String → ℚ) (evaluated : List Signal) : List Signal :=
  evaluated.filter (fun s => signalPassesFilter (minConf s.strategy) s)

/-- C8: a non-HOLD evaluated signal is enqueued if and only if its confidence
is at least the min_confidence threshold of its strategy, and any evaluated
signal with confidence strictly below the threshold never reaches the queue. -/
theorem C8_confidence_threshold (minConf : String → ℚ) (evaluated : List Signal)
    (s : Signal) (hs : s ∈ evaluated) :
    (s.direction ≠ .HOLD →
      (s ∈ generatorEnqueue minConf evaluated ↔ minConf s.strategy ≤ s.confidence)) ∧
    (s.confidence < minConf s.strategy → s ∉ generatorEnqueue minConf evaluated) := by
  constructor
  · intro hd
    simp [generatorEnqueue, signalPassesFilter, List.mem_filter, hs, hd]
  · intro hlt hmem
    rw [generatorEnqueue, List.mem_filter] at hmem
    have := hmem.2
    simp [signalPassesFilter] at this
    exact absurd this.2 (not_le.mpr hlt)

/-- C8 witness: a BUY signal with confidence 0.5 against a threshold of 0.4 is
enqueued from a one-element evaluation. -/
theorem C8_witness :
    (⟨"GOLD", "day", .BUY, 0.5⟩ : Signal) ∈
      generatorEnqueue (fun _ => 0.4) [⟨"GOLD", "day", .BUY, 0.5⟩] :=
  ((C8_confidence_threshold (fun _ => 0.4) [⟨"GOLD", "day", .BUY, 0.5⟩]
      ⟨"GOLD", "day", .BUY, 0.5⟩ (by simp)).1 (by simp)).mpr (by norm_num)

/-- Modelled from the spec: the admission-and-execution step of the trade
executor as one atomic unit (the execute_ai_trade duplicate-prevention logic
of the backend bot is only documented in the repository): if an OPEN position
for the same (instrument, strategy, platform) key already exists, the
candidate position is skipped; otherwise it is created. -/
def executeAiTrade (ps : List Position) (p : Position) : List Position :=
  if hasOpenPosition ps p.instrument p.strategy p.platform then ps
  else p :: ps

/-- Closing a position by id: the position transitions to CLOSED, all other
positions are untouched. -/
def closeById (ps : List Position) (pid : Nat) : List Position :=
  ps.map (fun p => if p.id = pid then { p with status := .CLOSED } else p)

/-- One step of the engine on the position set: an atomic
admission-and-execution pass, or the monitor closing a position. -/
inductive EngineStep : List Position → List Position → Prop where
  | execute (ps : List Position) (p : Position) : EngineStep ps (executeAiTrade ps p)
  | close (ps : List Position) (pid : Nat) : EngineStep ps (closeById ps pid)

/-- Reachability under interleaved engine steps: since the duplicate check and
the creation are one atomic step, any interleaving of executor passes is a
sequence of EngineStep transitions. -/
inductive EngineReachable : List Position → List Position → Prop where
  | refl (ps : List Position) : EngineReachable ps ps
  | tail {ps qs rs : List Position} :
      EngineReachable ps qs → EngineStep qs rs → EngineReachable ps rs

/-- Two positions are twins when both are OPEN for the same (instrument,
strategy, platform) key. -/
def twinOpen (p q : Position) : Prop :=
  p.status = .OPEN ∧ q.status = .OPEN ∧ p.instrument = q.instrument ∧
  p.strategy = q.strategy ∧ p.platform = q.platform

/-- No two OPEN positions exist for the same key. -/
def noTwinOpen (ps : List Position) : Prop :=
  List.Pairwise (fun p q => ¬ twinOpen p q) ps

theorem executeAiTrade_preserves_noTwinOpen {ps : List Position} (p : Position)
    (h : noTwinOpen ps) : noTwinOpen (executeAiTrade ps p) := by
  unfold executeAiTrade
  split_ifs with hdup
  · exact h
  · refine List.Pairwise.cons ?_ h
    intro q hq htwin
    apply hdup
    rw [hasOpenPosition, List.any_eq_true]
    refine ⟨q, hq, ?_⟩
    rcases htwin with ⟨_, hqopen, hinstr, hstrat, hplat⟩
    simp [isOpenFor, hqopen, hinstr.symm, hstrat.symm, hplat.symm]

theorem closeById_preserves_noTwinOpen {ps : List Position} (pid : Nat)
    (h : noTwinOpen ps) : noTwinOpen (closeById ps pid) := by
  unfold closeById noTwinOpen
  refine List.Pairwise.map _ ?_ h
  intro a b hab htwin
  apply hab
  rcases htwin with ⟨haopen, hbopen, hinstr, hstrat, hplat⟩
  by_cases ha : a.id = pid <;> by_cases hb : b.id = pid <;>
    simp_all [twinOpen]

/-- C4: in every position-set state reachable by the atomic
admission-and-execution step relation of the engine (interleaved executor
passes and monitor closes) from a state without twin OPEN positions, no two
OPEN positions exist for the same (instrument, strategy, platform) key: the
dup check and the creation acting as one atomic unit never open twins. -/
theorem C4_no_twin_open_positions {s0 s : List Position}
    (h0 : noTwinOpen s0) (h : EngineReachable s0 s) : noTwinOpen s := by
  induction h with
  | refl => exact h0
  | tail _ step ih =>
    cases step with
    | execute p => exact executeAiTrade_preserves_noTwinOpen p ih
    | close pid => exact closeById_preserves_noTwinOpen pid ih

/-- A concrete candidate position used in the C4 witness. -/
def c4Position : Position :=
  { id := 7, instrument := "GOLD", platform := "MT5_LIBERTEX", strategy := "day",
    direction := .BUY, entry_price := 100, quantity := 1,
    stop_loss := 98.5, take_profit := 102.5, status := .OPEN }

/-- C4 witness: two executor passes on the same candidate, starting from the
empty position set, leave no twin OPEN positions (the second pass is skipped
by the duplicate check). -/
theorem C4_witness :
    noTwinOpen (executeAiTrade (executeAiTrade [] c4Position) c4Position) :=
  C4_no_twin_open_positions List.Pairwise.nil
    (EngineReachable.tail
      (EngineReachable.tail (EngineReachable.refl []) (EngineStep.execute [] c4Position))
      (EngineStep.execute (executeAiTrade [] c4Position) c4Position))

/-- The settings object of the Dashboard component state, restricted to the
fields that the handleUpdateSettings handler inspects. -/
structure TradingSettings where
  auto_trading : Bool
  use_ai_analysis : Bool
  combined_max_balance_percent_per_platform : ℚ
  active_platforms : List String
deriving DecidableEq, Repr

/-- Dashboard component state touched by handleUpdateSettings: the active
settings, the gpt5Active flag and whether the settings dialog is open. -/
structure DashboardState where
  settings : TradingSettings
  gpt5Active : Bool
  settingsOpen : Bool
deriving DecidableEq, Repr

/-- From Dashboard.jsx handleUpdateSettings: on a successful POST of the new
settings the component state takes the server response (setSettings,
setGpt5Active, dialog closed); on any error (timeout, network failure, or the
server rejecting a malformed update) the catch branch only emits an error
toast and the state is left unchanged. -/
def handleUpdateSettings (st : DashboardState) (postResult : Except String TradingSettings) :
    DashboardState :=
  match postResult with
  | .ok resp =>
    { st with
      settings := resp,
      gpt5Active := resp.use_ai_analysis && resp.auto_trading,
      settingsOpen := false }
  | .error _ => st

/-- C7: when the settings update fails (malformed update rejected by the
server, or any transport error), the previously active configuration remains
in effect unchanged; the whole component state is untouched, so subsequent
cycles keep reading the old config. -/
theorem C7_config_unchanged_on_error (st : DashboardState) (e : String) :
    (handleUpdateSettings st (.error e)).settings = st.settings ∧
    handleUpdateSettings st (.error e) = st :=
  ⟨rfl, rfl⟩

/-- From Dashboard.jsx nextCommodity: with no enabled commodities the index is
left unchanged (guard against division by zero); otherwise the successor
index modulo the list length.  The JavaScript remainder operator agrees with
Int.emod on the non-negative dividends arising here. -/
def nextCommodity (len : Nat) (i : ℤ) : ℤ :=
  if len = 0 then i else (i + 1) % (len : ℤ)

/-- From Dashboard.jsx prevCommodity: with no enabled commodities the index is
left unchanged; otherwise (i - 1 + len) modulo len. -/
def prevCommodity (len : Nat) (i : ℤ) : ℤ :=
  if len = 0 then i else (i - 1 + (len : ℤ)) % (len : ℤ)

theorem emod_add_emod_left (L a b : ℤ) : (a % L + b) % L = (a + b) % L := by
  conv_lhs => rw [Int.add_emod, Int.emod_emod_of_dvd _ dvd_rfl, ← Int.add_emod]

/-- C9: carousel navigation is total and a round trip is the identity: for a
non-empty commodity list and any valid index, nextCommodity then
prevCommodity (and vice versa) restores the index, and on the empty list both
operations leave the index unchanged. -/
theorem C9_carousel_roundtrip (len : Nat) (i : ℤ) (h0 : 0 ≤ i) (h1 : i < (len : ℤ)) :
    prevCommodity len (nextCommodity len i) = i ∧
    nextCommodity len (prevCommodity len i) = i ∧
    (∀ j : ℤ, nextCommodity 0 j = j ∧ prevCommodity 0 j = j) := by
  have hlen : len ≠ 0 := by
    intro h
    rw [h] at h1
    omega
  have hL : (0 : ℤ) < (len : ℤ) := by
    exact_mod_cast Nat.pos_of_ne_zero hlen
  refine ⟨?_, ?_, fun j => ⟨rfl, rfl⟩⟩
  · rw [nextCommodity, prevCommodity, if_neg hlen, if_neg hlen]
    have e1 : (i + 1) % (len : ℤ) - 1 + (len : ℤ) =
        (i + 1) % (len : ℤ) + ((len : ℤ) - 1) := by ring
    rw [e1, emod_add_emod_left]
    have e2 : i + 1 + ((len : ℤ) - 1) = i + (len : ℤ) * 1 := by ring
    rw [e2, Int.add_mul_emod_self_left]
    exact Int.emod_eq_of_lt h0 h1
  · rw [nextCommodity, prevCommodity, if_neg hlen, if_neg hlen]
    rw [emod_add_emod_left]
    have e2 : i - 1 + (len : ℤ) + 1 = i + (len : ℤ) * 1 := by ring
    rw [e2, Int.add_mul_emod_self_left]
    exact Int.emod_eq_of_lt h0 h1

/-- C9 witness: with three enabled commodities and current index 2, both round
trips restore the index, and on the empty list both operations are the
identity. -/
theorem C9_witness :
    prevCommodity 3 (nextCommodity 3 2) = 2 ∧
    nextCommodity 3 (prevCommodity 3 2) = 2 ∧
    (∀ j : ℤ, nextCommodity 0 j = j ∧ prevCommodity 0 j = j) :=
  C9_carousel_roundtrip 3 2 (by norm_num) (by norm_num)

/-- A settings value as it appears in the SettingsDialog default object:
boolean flags, numbers (embedded as exact rationals), strings, or string
lists. -/
inductive SettingValue where
  | b (x : Bool)
  | n (x : ℚ)
  | s (x : String)
  | strs (x : List String)
deriving DecidableEq, Repr

/-- The built-in default settings object from the SettingsDialog useState
initializer (SettingsDialog.jsx lines 12-61), field for field. -/
def settingsDefaults : List (String × SettingValue) :=
  [ ("auto_trading", .b false),
    ("use_ai_analysis", .b true),
    ("ai_provider", .s "emergent"),
    ("ai_model", .s "gpt-5"),
    ("ollama_base_url", .s "http://127.0.0.1:11434"),
    ("ollama_model", .s "llama3:latest"),
    ("use_llm_confirmation", .b false),
    ("swing_trading_enabled", .b true),
    ("swing_min_confidence_score", .n 0.6),
    ("swing_stop_loss_percent", .n 2.0),
    ("swing_take_profit_percent", .n 4.0),
    ("swing_max_positions", .n 5),
    ("swing_risk_per_trade_percent", .n 2.0),
    ("swing_position_hold_time_hours", .n 168),
    ("day_trading_enabled", .b true),
    ("day_min_confidence_score", .n 0.4),
    ("day_stop_loss_percent", .n 1.5),
    ("day_take_profit_percent", .n 2.5),
    ("day_max_positions", .n 10),
    ("day_risk_per_trade_percent", .n 1.0),
    ("day_position_hold_time_hours", .n 2),
    ("scalping_enabled", .b false),
    ("scalping_min_confidence_score", .n 0.6),
    ("scalping_max_positions", .n 3),
    ("scalping_take_profit_percent", .n 0.15),
    ("scalping_stop_loss_percent", .n 0.08),
    ("scalping_max_hold_time_minutes", .n 5),
    ("scalping_risk_per_trade_percent", .n 0.5),
    ("max_trades_per_hour", .n 10),
    ("combined_max_balance_percent_per_platform", .n 20.0),
    ("rsi_oversold_threshold", .n 30),
    ("rsi_overbought_threshold", .n 70),
    ("macd_signal_threshold", .n 0),
    ("active_platforms", .strs []) ]

/-- Lookup of a field in the default settings object. -/
def defaultsLookup (k : String) : Option SettingValue :=
  (settingsDefaults.find? (fun kv => kv.1 = k)).map (fun kv => kv.2)

/-- The SettingsDialog useState initializer: with no stored settings the form
state is the default object; otherwise the spread merge of defaults and
stored settings, where a field present in storage wins and every other field
keeps its default (the stored object is embedded as a partial map from field
names to values, matching a JSON settings record). -/
def initFormData (settings : Option (String → Option SettingValue)) (k : String) :
    Option SettingValue :=
  match settings with
  | none => defaultsLookup k
  | some st =>
    match st k with
    | some v => some v
    | none => defaultsLookup k

/-- C10: the settings form state is the complete default object overlaid with
the stored settings: with no stored object every field is its default; a
field absent from storage takes its default (in particular
combined_max_balance_percent_per_platform 20.0, day_min_confidence_score 0.4
and swing_min_confidence_score 0.6); a field present in storage overrides the
default; and every field with a built-in default is defined in the merged
state for every stored object. -/
theorem C10_settings_merge_defaults (st : String → Option SettingValue) (k : String) :
    initFormData none k = defaultsLookup k ∧
    (st k = none → initFormData (some st) k = defaultsLookup k) ∧
    (∀ w, st k = some w → initFormData (some st) k = some w) ∧
    ((defaultsLookup k).isSome → (initFormData (some st) k).isSome) ∧
    defaultsLookup "combined_max_balance_percent_per_platform" = some (.n 20.0) ∧
    defaultsLookup "day_min_confidence_score" = some (.n 0.4) ∧
    defaultsLookup "swing_min_confidence_score" = some (.n 0.6) := by
  refine ⟨rfl, ?_, ?_, ?_, rfl, rfl, rfl⟩
  · intro h
    simp [initFormData, h]
  · intro w h
    simp [initFormData, h]
  · intro hsome
    rw [initFormData]
    cases h : st k with
    | none => simpa using hsome
    | some v => simp

/-- C10 witness: merging the empty stored settings object, the day trading
minimum confidence field takes its documented default 0.4. -/
theorem C10_witness :
    initFormData (some (fun _ => none)) "day_min_confidence_score" = some (.n 0.4) := by
  have h := C10_settings_merge_defaults (fun _ => none) "day_min_confidence_score"
  rw [h.2.1 rfl]
  exact h.2.2.2.2.2.1

end BoonerTrade
